import Mathlib

/-!
Verification of the register-snapshot layer of `probe-rs`
(`src/probe-rs/src/debug/registers.rs`).

The snapshot owns a finite map from raw register index to captured value
(a `HashMap<u32, u32>` in the source, modelled as a `Finmap` over `Nat`:
indices and values are only stored, compared and copied, never combined
arithmetically, so no 32-bit wraparound can arise).  The `RegisterFile`
description and the `Core` hardware session are collaborators declared
outside the file under verification; they are modelled from the spec.
-/

namespace ProbeRs

/-- Target architecture tag (`probe_rs_target::Architecture`), the closed
variant set matched exhaustively by the accessors in the source. -/
inductive Architecture where
  | Arm
  | Riscv
deriving DecidableEq, Repr

/-- Modelled from the spec: a platform register descriptor, yielding at least
its name.  The descriptor type referenced by `RegisterFile` is declared
outside `src/debug/registers.rs`. -/
structure PlatformRegister where
  name : String
deriving DecidableEq, Repr

/-- Modelled from the spec: the static Register Description (`RegisterFile`),
an immutable per-target catalog exposing the total count and list of platform
register descriptors.  `RegisterFile` is declared outside
`src/debug/registers.rs`. -/
structure RegisterFile where
  platform_registers : List PlatformRegister
deriving DecidableEq, Repr

/-- Modelled from the spec: lookup of a platform register descriptor by index,
absent when the index is outside the description's known range. -/
def RegisterFile.get_platform_register (rf : RegisterFile) (n : Nat) :
    Option PlatformRegister :=
  rf.platform_registers.get? n

/-- The captured-values map: `HashMap<u32, u32>` in the source. -/
abbrev RegMap := Finmap fun _ : Nat => Nat

/-- All the register information currently available (`struct Registers`):
the description reference, the values keyed by raw index, and the
architecture tag fixed at capture time. -/
structure Registers where
  register_description : RegisterFile
  values : RegMap
  architecture : Architecture

/-- Modelled from the spec: the hardware session (`Core`), exposing the
register description, the architecture tag, and a per-register read that may
fail individually (`none` models `Err`).  The read is keyed by the platform
register index, which in the source determines the descriptor handed to
`read_core_reg`.  `Core` is declared outside `src/debug/registers.rs`. -/
structure Core where
  registers : RegisterFile
  architecture : Architecture
  read_core_reg : Nat → Option Nat

/-- The capture loop of `Registers::from_core`: for each platform register
index in ascending order `0..n`, attempt one read; insert the value on
success, log and skip on failure. -/
def capture_values (read : Nat → Option Nat) (n : Nat) : RegMap :=
  (List.range n).foldl
    (fun values i =>
      match read i with
      | some value => values.insert i value
      | none => values)
    ∅

/-- Read all registers from the given core (`Registers::from_core`):
build the snapshot from the session's description and architecture and run
the capture loop over every platform register.  The function is total: it
returns a snapshot whatever the reads do. -/
def Registers.from_core (core : Core) : Registers :=
  { register_description := core.registers
    values := capture_values core.read_core_reg core.registers.platform_registers.length
    architecture := core.architecture }

/-- Get the canonical frame address (`Registers::get_frame_pointer`). -/
def Registers.get_frame_pointer (self : Registers) : Option Nat :=
  match self.architecture with
  | .Arm => self.values.lookup 7
  | .Riscv => self.values.lookup 8

/-- Set the canonical frame address (`Registers::set_frame_pointer`). -/
def Registers.set_frame_pointer (self : Registers) (value : Option Nat) :
    Registers :=
  let register_address : Nat :=
    match self.architecture with
    | .Arm => 7
    | .Riscv => 8
  match value with
  | some value => { self with values := self.values.insert register_address value }
  | none => { self with values := self.values.erase register_address }

/-- Get the program counter (`Registers::get_program_counter`). -/
def Registers.get_program_counter (self : Registers) : Option Nat :=
  match self.architecture with
  | .Arm => self.values.lookup 15
  | .Riscv => self.values.lookup 1

/-- Set the program counter (`Registers::set_program_counter`). -/
def Registers.set_program_counter (self : Registers) (value : Option Nat) :
    Registers :=
  let register_address : Nat :=
    match self.architecture with
    | .Arm => 15
    | .Riscv => 1
  match value with
  | some value => { self with values := self.values.insert register_address value }
  | none => { self with values := self.values.erase register_address }

/-- Get the stack pointer (`Registers::get_stack_pointer`). -/
def Registers.get_stack_pointer (self : Registers) : Option Nat :=
  match self.architecture with
  | .Arm => self.values.lookup 13
  | .Riscv => self.values.lookup 2

/-- Set the stack pointer (`Registers::set_stack_pointer`). -/
def Registers.set_stack_pointer (self : Registers) (value : Option Nat) :
    Registers :=
  let register_address : Nat :=
    match self.architecture with
    | .Arm => 13
    | .Riscv => 2
  match value with
  | some value => { self with values := self.values.insert register_address value }
  | none => { self with values := self.values.erase register_address }

/-- Get the return address (`Registers::get_return_address`). -/
def Registers.get_return_address (self : Registers) : Option Nat :=
  match self.architecture with
  | .Arm => self.values.lookup 14
  | .Riscv => self.values.lookup 1

/-- Set the return address (`Registers::set_return_address`). -/
def Registers.set_return_address (self : Registers) (value : Option Nat) :
    Registers :=
  let register_address : Nat :=
    match self.architecture with
    | .Arm => 14
    | .Riscv => 1
  match value with
  | some value => { self with values := self.values.insert register_address value }
  | none => { self with values := self.values.erase register_address }

/-- Get the value using the dwarf register number as an index
(`Registers::get_value_by_dwarf_register_number`). -/
def Registers.get_value_by_dwarf_register_number (self : Registers)
    (register_number : Nat) : Option Nat :=
  self.values.lookup register_number

/-- Lookup the register name from the register description
(`Registers::get_name_by_dwarf_register_number`). -/
def Registers.get_name_by_dwarf_register_number (self : Registers)
    (register_number : Nat) : Option String :=
  (self.register_description.get_platform_register register_number).map
    (fun platform_register => platform_register.name)

/-- Set the value using the dwarf register number as an index
(`Registers::set_by_dwarf_register_number`): insert/overwrite on `some`,
remove on `none`. -/
def Registers.set_by_dwarf_register_number (self : Registers)
    (register_number : Nat) (value : Option Nat) : Registers :=
  match value with
  | some value => { self with values := self.values.insert register_number value }
  | none => { self with values := self.values.erase register_number }

/-- Iterator over all register numbers and their values
(`Registers::registers`), modelled as the multiset of entries of the current
map; it reads the snapshot and mutates nothing. -/
def Registers.registers (self : Registers) : Multiset (Sigma fun _ : Nat => Nat) :=
  self.values.entries

/-- The capture loop, pointwise: an index below the loop bound holds exactly
what its read returned (`none` models a failed read, left absent), and an
index at or above the bound is absent. -/
theorem capture_values_lookup (read : Nat → Option Nat) :
    ∀ n j, (capture_values read n).lookup j = if j < n then read j else none := by
  intro n
  induction n with
  | zero =>
      intro j
      simp [capture_values]
  | succ n ih =>
      intro j
      have hstep : capture_values read (n + 1) =
          (match read n with
           | some value => (capture_values read n).insert n value
           | none => capture_values read n) := by
        simp [capture_values, List.range_succ]
      rcases Nat.lt_trichotomy j n with hlt | heq | hgt
      · rw [hstep]
        cases hr : read n with
        | some value =>
            rw [Finmap.lookup_insert_of_ne _ (Nat.ne_of_lt hlt)]
            rw [ih j]
            simp [hlt, Nat.lt_succ_of_lt hlt]
        | none =>
            rw [ih j]
            simp [hlt, Nat.lt_succ_of_lt hlt]
      · subst heq
        rw [hstep]
        cases hr : read j with
        | some value =>
            rw [Finmap.lookup_insert]
            simp [Nat.lt_succ_self, hr]
        | none =>
            rw [ih j]
            simp [Nat.lt_succ_self, hr]
      · rw [hstep]
        have h1 : ¬ j < n := by omega
        have h2 : ¬ j < n + 1 := by omega
        cases hr : read n with
        | some value =>
            rw [Finmap.lookup_insert_of_ne _ (by omega : j ≠ n)]
            rw [ih j]
            simp [h1, h2]
        | none =>
            rw [ih j]
            simp [h1, h2]

/-- C1: capture (`from_core`) is best-effort and total.  For every platform
register index `i` below the platform register count, the snapshot returned by
`from_core` holds exactly what the hardware read for `i` returned: the value
`v` when the read succeeded with `v` (`read_core_reg i = some v`), and absent
when the read failed (`read_core_reg i = none`).  `from_core` is a total
function, so capture never fails and always returns a snapshot no matter how
many individual reads fail. -/
theorem from_core_best_effort (core : Core) (i : Nat)
    (h : i < core.registers.platform_registers.length) :
    (Registers.from_core core).get_value_by_dwarf_register_number i =
      core.read_core_reg i := by
  unfold Registers.from_core Registers.get_value_by_dwarf_register_number
  rw [capture_values_lookup]
  simp [h]

/-- A simulated session over 8 platform registers where the reads for raw
indices 2 and 5 fail and every other index `i` reads `i + 10`. -/
def witnessCore : Core :=
  { registers :=
      { platform_registers :=
          [⟨"R0"⟩, ⟨"R1"⟩, ⟨"R2"⟩, ⟨"R3"⟩, ⟨"R4"⟩, ⟨"R5"⟩, ⟨"R6"⟩, ⟨"R7"⟩] }
    architecture := .Arm
    read_core_reg := fun i => if i = 2 ∨ i = 5 then none else some (i + 10) }

/-- Witness for C1 at the simulated session: index 3 is in range and the
snapshot holds its read value, while index 5 (a failed read) is absent. -/
theorem from_core_best_effort_witness :
    3 < witnessCore.registers.platform_registers.length ∧
    (Registers.from_core witnessCore).get_value_by_dwarf_register_number 3 =
      some 13 ∧
    (Registers.from_core witnessCore).get_value_by_dwarf_register_number 5 =
      none :=
  ⟨by decide,
   by rw [from_core_best_effort witnessCore 3 (by decide)]; rfl,
   by rw [from_core_best_effort witnessCore 5 (by decide)]; rfl⟩

/-- C2: each semantic getter reads exactly the raw index fixed by the
per-architecture table (frame pointer 7/8, program counter 15/1, stack
pointer 13/2, return address 14/1 for Arm/Riscv), returning the captured
value at that index or absent; each semantic setter inserts at exactly that
index on `some` and removes exactly that index on `none`. -/
theorem semantic_accessor_mapping (d : RegisterFile) (vals : RegMap) (v : Nat) :
    ((Registers.mk d vals .Arm).get_frame_pointer = vals.lookup 7) ∧
    ((Registers.mk d vals .Riscv).get_frame_pointer = vals.lookup 8) ∧
    ((Registers.mk d vals .Arm).get_program_counter = vals.lookup 15) ∧
    ((Registers.mk d vals .Riscv).get_program_counter = vals.lookup 1) ∧
    ((Registers.mk d vals .Arm).get_stack_pointer = vals.lookup 13) ∧
    ((Registers.mk d vals .Riscv).get_stack_pointer = vals.lookup 2) ∧
    ((Registers.mk d vals .Arm).get_return_address = vals.lookup 14) ∧
    ((Registers.mk d vals .Riscv).get_return_address = vals.lookup 1) ∧
    ((Registers.mk d vals .Arm).set_frame_pointer (some v) =
      Registers.mk d (vals.insert 7 v) .Arm) ∧
    ((Registers.mk d vals .Arm).set_frame_pointer none =
      Registers.mk d (vals.erase 7) .Arm) ∧
    ((Registers.mk d vals .Riscv).set_frame_pointer (some v) =
      Registers.mk d (vals.insert 8 v) .Riscv) ∧
    ((Registers.mk d vals .Riscv).set_frame_pointer none =
      Registers.mk d (vals.erase 8) .Riscv) ∧
    ((Registers.mk d vals .Arm).set_program_counter (some v) =
      Registers.mk d (vals.insert 15 v) .Arm) ∧
    ((Registers.mk d vals .Arm).set_program_counter none =
      Registers.mk d (vals.erase 15) .Arm) ∧
    ((Registers.mk d vals .Riscv).set_program_counter (some v) =
      Registers.mk d (vals.insert 1 v) .Riscv) ∧
    ((Registers.mk d vals .Riscv).set_program_counter none =
      Registers.mk d (vals.erase 1) .Riscv) ∧
    ((Registers.mk d vals .Arm).set_stack_pointer (some v) =
      Registers.mk d (vals.insert 13 v) .Arm) ∧
    ((Registers.mk d vals .Arm).set_stack_pointer none =
      Registers.mk d (vals.erase 13) .Arm) ∧
    ((Registers.mk d vals .Riscv).set_stack_pointer (some v) =
      Registers.mk d (vals.insert 2 v) .Riscv) ∧
    ((Registers.mk d vals .Riscv).set_stack_pointer none =
      Registers.mk d (vals.erase 2) .Riscv) ∧
    ((Registers.mk d vals .Arm).set_return_address (some v) =
      Registers.mk d (vals.insert 14 v) .Arm) ∧
    ((Registers.mk d vals .Arm).set_return_address none =
      Registers.mk d (vals.erase 14) .Arm) ∧
    ((Registers.mk d vals .Riscv).set_return_address (some v) =
      Registers.mk d (vals.insert 1 v) .Riscv) ∧
    ((Registers.mk d vals .Riscv).set_return_address none =
      Registers.mk d (vals.erase 1) .Riscv) :=
  ⟨rfl, rfl, rfl, rfl, rfl, rfl, rfl, rfl, rfl, rfl, rfl, rfl, rfl, rfl, rfl,
   rfl, rfl, rfl, rfl, rfl, rfl, rfl, rfl, rfl⟩

/-- C3: Riscv aliasing quirk.  On a Riscv snapshot, program counter and
return address share raw index 1, so setting either role to `some v` makes
the other role's getter return `some v`; on an Arm snapshot the two roles use
distinct indices (15 and 14), so setting either leaves the other's getter
unchanged. -/
theorem riscv_pc_return_address_alias (d : RegisterFile) (vals : RegMap)
    (v : Nat) :
    (((Registers.mk d vals .Riscv).set_program_counter (some v)).get_return_address
      = some v) ∧
    (((Registers.mk d vals .Riscv).set_return_address (some v)).get_program_counter
      = some v) ∧
    (((Registers.mk d vals .Arm).set_program_counter (some v)).get_return_address
      = (Registers.mk d vals .Arm).get_return_address) ∧
    (((Registers.mk d vals .Arm).set_return_address (some v)).get_program_counter
      = (Registers.mk d vals .Arm).get_program_counter) := by
  refine ⟨?_, ?_, ?_, ?_⟩
  · show (vals.insert 1 v).lookup 1 = some v
    exact Finmap.lookup_insert vals
  · show (vals.insert 1 v).lookup 1 = some v
    exact Finmap.lookup_insert vals
  · show (vals.insert 15 v).lookup 14 = vals.lookup 14
    exact Finmap.lookup_insert_of_ne vals (by decide)
  · show (vals.insert 14 v).lookup 15 = vals.lookup 15
    exact Finmap.lookup_insert_of_ne vals (by decide)

/-- C4: set/get round-trip for the semantic roles.  For every snapshot
(hence for both architectures) and every value `v`, setting a role to
`some v` then reading it returns `some v`, and setting it to `none` then
reading it returns `none`; this holds for all four roles. -/
theorem set_get_round_trip (r : Registers) (v : Nat) :
    ((r.set_frame_pointer (some v)).get_frame_pointer = some v) ∧
    ((r.set_frame_pointer none).get_frame_pointer = none) ∧
    ((r.set_program_counter (some v)).get_program_counter = some v) ∧
    ((r.set_program_counter none).get_program_counter = none) ∧
    ((r.set_stack_pointer (some v)).get_stack_pointer = some v) ∧
    ((r.set_stack_pointer none).get_stack_pointer = none) ∧
    ((r.set_return_address (some v)).get_return_address = some v) ∧
    ((r.set_return_address none).get_return_address = none) := by
  obtain ⟨d, vals, arch⟩ := r
  cases arch <;>
    simp [Registers.set_frame_pointer, Registers.get_frame_pointer,
      Registers.set_program_counter, Registers.get_program_counter,
      Registers.set_stack_pointer, Registers.get_stack_pointer,
      Registers.set_return_address, Registers.get_return_address,
      Finmap.lookup_insert, Finmap.lookup_erase]

/-- C5: iteration is exact.  A pair `(i, v)` occurs in the sequence produced
by `registers()` exactly when the snapshot's map currently holds value `v` at
raw index `i`; `registers` is a pure function of the snapshot, reading the
current map state and mutating nothing. -/
theorem registers_iteration_exact (r : Registers) (i v : Nat) :
    Sigma.mk i v ∈ r.registers ↔
      r.get_value_by_dwarf_register_number i = some v := by
  simp only [Registers.registers, Registers.get_value_by_dwarf_register_number]
  rw [← Finmap.mem_lookup_iff, Option.mem_def]

/-- C6: each semantic setter is expressible via the generic primitive.  For
every snapshot state, role, and optional value `x`, `set_role x` produces
exactly the same snapshot as `set_by_dwarf_register_number m x` where `m` is
the role's mapped raw index for the snapshot's architecture (7/8, 15/1, 13/2,
14/1 for Arm/Riscv). -/
theorem setters_via_generic_primitive (d : RegisterFile) (vals : RegMap)
    (x : Option Nat) :
    ((Registers.mk d vals .Arm).set_frame_pointer x =
      (Registers.mk d vals .Arm).set_by_dwarf_register_number 7 x) ∧
    ((Registers.mk d vals .Riscv).set_frame_pointer x =
      (Registers.mk d vals .Riscv).set_by_dwarf_register_number 8 x) ∧
    ((Registers.mk d vals .Arm).set_program_counter x =
      (Registers.mk d vals .Arm).set_by_dwarf_register_number 15 x) ∧
    ((Registers.mk d vals .Riscv).set_program_counter x =
      (Registers.mk d vals .Riscv).set_by_dwarf_register_number 1 x) ∧
    ((Registers.mk d vals .Arm).set_stack_pointer x =
      (Registers.mk d vals .Arm).set_by_dwarf_register_number 13 x) ∧
    ((Registers.mk d vals .Riscv).set_stack_pointer x =
      (Registers.mk d vals .Riscv).set_by_dwarf_register_number 2 x) ∧
    ((Registers.mk d vals .Arm).set_return_address x =
      (Registers.mk d vals .Arm).set_by_dwarf_register_number 14 x) ∧
    ((Registers.mk d vals .Riscv).set_return_address x =
      (Registers.mk d vals .Riscv).set_by_dwarf_register_number 1 x) := by
  cases x <;> exact ⟨rfl, rfl, rfl, rfl, rfl, rfl, rfl, rfl⟩

/-- C7: name lookup out of range is absent, not an error.  For a raw index at
or beyond the description's platform register count the name lookup returns
`none`; for an in-range index it returns the description's name at that
index; and the result depends only on the description, not on which values
were captured (nor on the architecture). -/
theorem name_lookup_out_of_range (r : Registers) (n : Nat) :
    (r.register_description.platform_registers.length ≤ n →
      r.get_name_by_dwarf_register_number n = none) ∧
    (∀ p, r.register_description.platform_registers.get? n = some p →
      r.get_name_by_dwarf_register_number n = some p.name) ∧
    (∀ (vals : RegMap) (arch : Architecture),
      (Registers.mk r.register_description vals arch).get_name_by_dwarf_register_number n =
        r.get_name_by_dwarf_register_number n) := by
  refine ⟨?_, ?_, ?_⟩
  · intro h
    unfold Registers.get_name_by_dwarf_register_number
      RegisterFile.get_platform_register
    rw [List.get?_eq_none.mpr h]
    rfl
  · intro p hp
    unfold Registers.get_name_by_dwarf_register_number
      RegisterFile.get_platform_register
    rw [hp]
    rfl
  · intro vals arch
    rfl

/-- A two-register description used to witness the name lookup contract. -/
def witnessFile : RegisterFile := { platform_registers := [⟨"R0"⟩, ⟨"R1"⟩] }

/-- Witness for C7: on a two-register description, index 5 is out of range
and yields no name, while index 1 yields the name of the second register. -/
theorem name_lookup_out_of_range_witness :
    witnessFile.platform_registers.length ≤ 5 ∧
    (Registers.mk witnessFile ∅ .Arm).get_name_by_dwarf_register_number 5 =
      none ∧
    (Registers.mk witnessFile ∅ .Arm).get_name_by_dwarf_register_number 1 =
      some "R1" :=
  ⟨by decide,
   (name_lookup_out_of_range (Registers.mk witnessFile ∅ .Arm) 5).1 (by decide),
   (name_lookup_out_of_range (Registers.mk witnessFile ∅ .Arm) 1).2.1 ⟨"R1"⟩ rfl⟩

/-- Erasing the same key twice from a register map equals erasing it once. -/
theorem erase_erase_self (s : RegMap) (n : Nat) :
    (s.erase n).erase n = s.erase n := by
  apply Finmap.ext_lookup
  intro x
  by_cases hx : x = n
  · subst hx
    simp [Finmap.lookup_erase]
  · rw [Finmap.lookup_erase_ne hx, Finmap.lookup_erase_ne hx]

/-- C8: removal is idempotent.  Calling `set_by_dwarf_register_number n none`
twice yields exactly the same snapshot state as calling it once, and
afterwards `get_value_by_dwarf_register_number n` is absent. -/
theorem remove_idempotent (r : Registers) (n : Nat) :
    ((r.set_by_dwarf_register_number n none).set_by_dwarf_register_number n none =
      r.set_by_dwarf_register_number n none) ∧
    ((r.set_by_dwarf_register_number n none).get_value_by_dwarf_register_number n =
      none) := by
  constructor
  · show Registers.mk r.register_description ((r.values.erase n).erase n)
        r.architecture =
      Registers.mk r.register_description (r.values.erase n) r.architecture
    rw [erase_erase_self]
  · show (r.values.erase n).lookup n = none
    exact Finmap.lookup_erase n r.values

/-- C9: the architecture tag and the register description reference are
immutable.  Every state-changing operation on a snapshot — the four semantic
setters and the generic setter — leaves both fields unchanged (the getters,
the name lookup and iteration return values without producing a new snapshot
at all), so the role-to-raw-index mapping the semantic accessors consult is a
fixed pure function of the architecture chosen at capture time. -/
theorem architecture_immutable (r : Registers) (x : Option Nat) (n : Nat) :
    ((r.set_frame_pointer x).architecture = r.architecture) ∧
    ((r.set_frame_pointer x).register_description = r.register_description) ∧
    ((r.set_program_counter x).architecture = r.architecture) ∧
    ((r.set_program_counter x).register_description = r.register_description) ∧
    ((r.set_stack_pointer x).architecture = r.architecture) ∧
    ((r.set_stack_pointer x).register_description = r.register_description) ∧
    ((r.set_return_address x).architecture = r.architecture) ∧
    ((r.set_return_address x).register_description = r.register_description) ∧
    ((r.set_by_dwarf_register_number n x).architecture = r.architecture) ∧
    ((r.set_by_dwarf_register_number n x).register_description =
      r.register_description) := by
  cases x <;> exact ⟨rfl, rfl, rfl, rfl, rfl, rfl, rfl, rfl, rfl, rfl⟩

/-- C10: no aliasing between roles on Arm.  On an Arm snapshot the four
semantic roles use the pairwise distinct raw indices 7, 15, 13 and 14, so
calling any one role's setter — with `some v` or `none` — leaves the other
three roles' getters returning what they returned before. -/
theorem arm_no_role_aliasing (d : RegisterFile) (vals : RegMap)
    (x : Option Nat) :
    (((Registers.mk d vals .Arm).set_frame_pointer x).get_program_counter =
      (Registers.mk d vals .Arm).get_program_counter) ∧
    (((Registers.mk d vals .Arm).set_frame_pointer x).get_stack_pointer =
      (Registers.mk d vals .Arm).get_stack_pointer) ∧
    (((Registers.mk d vals .Arm).set_frame_pointer x).get_return_address =
      (Registers.mk d vals .Arm).get_return_address) ∧
    (((Registers.mk d vals .Arm).set_program_counter x).get_frame_pointer =
      (Registers.mk d vals .Arm).get_frame_pointer) ∧
    (((Registers.mk d vals .Arm).set_program_counter x).get_stack_pointer =
      (Registers.mk d vals .Arm).get_stack_pointer) ∧
    (((Registers.mk d vals .Arm).set_program_counter x).get_return_address =
      (Registers.mk d vals .Arm).get_return_address) ∧
    (((Registers.mk d vals .Arm).set_stack_pointer x).get_frame_pointer =
      (Registers.mk d vals .Arm).get_frame_pointer) ∧
    (((Registers.mk d vals .Arm).set_stack_pointer x).get_program_counter =
      (Registers.mk d vals .Arm).get_program_counter) ∧
    (((Registers.mk d vals .Arm).set_stack_pointer x).get_return_address =
      (Registers.mk d vals .Arm).get_return_address) ∧
    (((Registers.mk d vals .Arm).set_return_address x).get_frame_pointer =
      (Registers.mk d vals .Arm).get_frame_pointer) ∧
    (((Registers.mk d vals .Arm).set_return_address x).get_program_counter =
      (Registers.mk d vals .Arm).get_program_counter) ∧
    (((Registers.mk d vals .Arm).set_return_address x).get_stack_pointer =
      (Registers.mk d vals .Arm).get_stack_pointer) := by
  cases x <;>
    simp [Registers.set_frame_pointer, Registers.get_frame_pointer,
      Registers.set_program_counter, Registers.get_program_counter,
      Registers.set_stack_pointer, Registers.get_stack_pointer,
      Registers.set_return_address, Registers.get_return_address,
      Finmap.lookup_insert_of_ne, Finmap.lookup_erase_ne]

end ProbeRs
